import Mathlib

/-
Verification development for the logerian logging library.

The definitions below are shallow embeddings of the TypeScript sources:
  * src/level.ts        (the extensible level registry)
  * src/util.ts         (coloredLog, stripANSIFormatting)
  * src/logger.ts       (the current Logger: streams, interception, pinned lines)
  * src/index.ts        (the earlier Logger generation: internalLog, enum levels)

Machine numbers are modelled as Int (the importances in play are small
integers plus Number.MAX_VALUE, which is the integer 2^1024 - 2^971).
JavaScript object identity (used by Array.prototype.includes and by the
pinned-line Set) is modelled by explicit numeric identity tags.  Node's
util.formatWithOptions is external to the library; for plain string
arguments (the only ones exercised here) it joins them with single
spaces, which is how formatData models it.  Wall-clock time read via
Date inside prefix generators is modelled by an explicit Time argument.
Fallible code returns Except String; thrown TypeErrors become error
values.  Recursion through nested loggers is bounded by an explicit
fuel argument so that every definition is structurally recursive and
kernel-evaluable; configurations are finite trees, so any fuel larger
than the nesting depth computes the exact behaviour.
-/

/-- Wall-clock time (hours, minutes, seconds) as read from Date. -/
structure Time where
  h : Nat
  m : Nat
  s : Nat

/-- Observable effects on destination sinks, identified by numeric handles. -/
inductive Event where
  | write : Nat → String → Event
  | moveCursor : Nat → Int → Int → Event
  | cursorTo : Nat → Nat → Event
  | clearLine : Nat → Nat → Event
deriving DecidableEq

/-- util.formatWithOptions applied to plain string arguments: space-joined. -/
def formatData (data : List String) : String := String.intercalate " " data

/- ## The ANSI-stripping regular expression (src/util.ts stripANSIFormatting)

The source removes every match of the global regex

  /[\u001B\u009B][[\]()#;?]*(?:(?:(?:[a-zA-Z\d]*(?:;[-a-zA-Z\d\/#&.:=?%@~_]*)*)?\u0007)|(?:(?:\d\x7b1,4\x7d(?:;\d\x7b0,4\x7d)*)?[\dA-PR-TZcf-ntqry=><~]))/g

from the string.  The combinators below enumerate, for each sub-pattern,
the consumed lengths in the exact order a backtracking engine explores
them (greedy quantifiers longest first, alternation left branch first);
the head of the list is the length the engine commits to. -/

def isIntro (c : Char) : Bool := c == '\x1b' || c == '\x9b'

def isStarPunct (c : Char) : Bool :=
  c == '[' || c == ']' || c == '(' || c == ')' || c == '#' || c == ';' || c == '?'

def isDigitCh (c : Char) : Bool := 48 ≤ c.toNat && c.toNat ≤ 57

def isAlphaCh (c : Char) : Bool :=
  (65 ≤ c.toNat && c.toNat ≤ 90) || (97 ≤ c.toNat && c.toNat ≤ 122)

def isAlnumCh (c : Char) : Bool := isAlphaCh c || isDigitCh c

def isOscBody (c : Char) : Bool :=
  c == '-' || isAlnumCh c || c == '/' || c == '#' || c == '&' || c == '.' || c == ':' ||
  c == '=' || c == '?' || c == '%' || c == '@' || c == '~' || c == '_'

def isFinalCh (c : Char) : Bool :=
  isDigitCh c || (65 ≤ c.toNat && c.toNat ≤ 80) || (82 ≤ c.toNat && c.toNat ≤ 84) ||
  c == 'Z' || c == 'c' || (102 ≤ c.toNat && c.toNat ≤ 110) || c == 't' || c == 'q' ||
  c == 'r' || c == 'y' || c == '=' || c == '>' || c == '<' || c == '~'

def catMap (f : Nat → List Nat) : List Nat → List Nat
  | [] => []
  | x :: xs => f x ++ catMap f xs

/-- Greedy star over a one-character class: lengths longest first. -/
def starCls (f : Char → Bool) : List Char → List Nat
  | [] => [0]
  | c :: rest => if f c then (starCls f rest).map (· + 1) ++ [0] else [0]

/-- A single character of a class. -/
def oneCls (f : Char → Bool) : List Char → List Nat
  | [] => []
  | c :: _ => if f c then [1] else []

def seqP (p q : List Char → List Nat) (l : List Char) : List Nat :=
  catMap (fun n => (q (l.drop n)).map (n + ·)) (p l)

def altP (p q : List Char → List Nat) (l : List Char) : List Nat := p l ++ q l

def optP (p : List Char → List Nat) (l : List Char) : List Nat := p l ++ [0]

def digitsPrefixLen : List Char → Nat
  | [] => 0
  | c :: rest => if isDigitCh c then digitsPrefixLen rest + 1 else 0

def countdown : Nat → List Nat
  | 0 => []
  | n + 1 => (n + 1) :: countdown n

def digits1to4 (l : List Char) : List Nat := countdown (min (digitsPrefixLen l) 4)

def digits0to4 (l : List Char) : List Nat := countdown (min (digitsPrefixLen l) 4) ++ [0]

/-- Greedy star over a group, preferring more iterations; fuel bounds the
number of iterations (each productive iteration consumes at least one
character, so fuel equal to the list length is exact). -/
def starGrp (g : List Char → List Nat) : Nat → List Char → List Nat
  | 0, _ => [0]
  | fuel + 1, l =>
    catMap (fun n => if n == 0 then [] else (starGrp g fuel (l.drop n)).map (n + ·)) (g l) ++ [0]

def semiOscGrp (l : List Char) : List Nat := seqP (oneCls (· == ';')) (starCls isOscBody) l

def semiDigitsGrp (l : List Char) : List Nat := seqP (oneCls (· == ';')) digits0to4 l

def branch1 (l : List Char) : List Nat :=
  seqP (optP (seqP (starCls isAlnumCh) (fun l2 => starGrp semiOscGrp l2.length l2)))
    (oneCls (· == '\x07')) l

def branch2 (l : List Char) : List Nat :=
  seqP (optP (seqP digits1to4 (fun l2 => starGrp semiDigitsGrp l2.length l2)))
    (oneCls isFinalCh) l

/-- Lengths the engine can match after the introducing ESC or CSI byte. -/
def matchAfterIntro (l : List Char) : List Nat :=
  seqP (starCls isStarPunct) (altP branch1 branch2) l

/-- One pass of String.prototype.replace with the global regex: scan left to
right; at an introducer try the rest of the pattern and delete the match the
engine commits to, resuming after it; otherwise keep the character.  The fuel
(instantiated with the list length) only serves structural recursion: every
deletion consumes at least the introducer character. -/
def stripAuxF : Nat → List Char → List Char
  | _, [] => []
  | 0, l => l
  | fuel + 1, c :: rest =>
    if isIntro c then
      match (matchAfterIntro rest).head? with
      | some n => stripAuxF fuel (rest.drop n)
      | none => c :: stripAuxF fuel rest
    else c :: stripAuxF fuel rest

/-- src/util.ts stripANSIFormatting. -/
def stripANSIFormatting (s : String) : String :=
  String.mk (stripAuxF s.data.length s.data)

/-- True when the string contains neither of the escape-introducer
characters (ESC, CSI) that every match of the regex begins with. -/
def noIntroStr (s : String) : Bool := s.data.all (fun c => !(isIntro c))

theorem stripAuxF_clean (l : List Char) (h : l.all (fun c => !(isIntro c)) = true) :
    ∀ fuel, stripAuxF fuel l = l := by
  induction l with
  | nil => intro fuel; cases fuel <;> rfl
  | cons c rest ih =>
    intro fuel
    simp only [List.all_cons, Bool.and_eq_true] at h
    cases fuel with
    | zero => rfl
    | succ f =>
      have hc : isIntro c = false := by
        have h1 := h.1
        rwa [Bool.not_eq_true'] at h1
      simp [stripAuxF, hc, ih h.2 f]

theorem strip_of_clean (s : String) (h : noIntroStr s = true) :
    stripANSIFormatting s = s := by
  unfold stripANSIFormatting
  rw [stripAuxF_clean s.data h]

/- ## The level registry (src/level.ts) -/

structure LevelFormatting where
  ansiColor : Int
deriving DecidableEq

structure LoggerLevelData where
  importance : Int
  formatting : Option LevelFormatting
deriving DecidableEq

/-- The module state of src/level.ts: the LoggerLevel record and the
levelsByImportance cache map, both in insertion order. -/
structure LevelRegistry where
  levels : List (String × LoggerLevelData)
  levelsByImportance : List (Int × String)
deriving DecidableEq

def lookupLevel (reg : LevelRegistry) (name : String) : Option LoggerLevelData :=
  reg.levels.lookup name

/-- String.prototype.toUpperCase, on the ASCII names used for levels. -/
def jsToUpperCase (s : String) : String := String.mk (s.data.map Char.toUpper)

/-- JavaScript Number.MAX_VALUE, which is the integer 2^1024 - 2^971,
written out so the kernel can evaluate comparisons against it. -/
def numberMaxValue : Int := 179769313486231570814527423731704356798070567525844996598917476803157260780028538760589558632766878171540458953514382464234321326889464182768467546703537516986049910576551282076245490090389328944075868508455133942304583236903222948165808559332123348274797826204144723168738177180919299881250404026184124858368

/-- src/level.ts addLoggerLevel.  A throw leaves the module state unchanged,
so the function returns the (possibly unchanged) state next to the
Except-valued result.  The runtime typeof guards are enforced by types. -/
def addLoggerLevel (reg : LevelRegistry) (identifier : String) (data : LoggerLevelData) :
    LevelRegistry × Except String LoggerLevelData :=
  let ident := jsToUpperCase identifier
  if (reg.levels.lookup ident).isSome then
    (reg, Except.error ("Logger level " ++ ident ++ " already exists!"))
  else if (reg.levelsByImportance.lookup data.importance).isSome then
    (reg, Except.error "There is already a logger level of that importance!")
  else
    let d : LoggerLevelData := ⟨data.importance, some (data.formatting.getD ⟨34⟩)⟩
    (⟨reg.levels ++ [(ident, d)], reg.levelsByImportance ++ [(data.importance, ident)]⟩,
      Except.ok d)

def emptyRegistry : LevelRegistry := ⟨[], []⟩

/-- The six registrations performed at module load in src/level.ts. -/
def builtinLevels : List (String × LoggerLevelData) :=
  [("DEBUG", ⟨0, some ⟨34⟩⟩), ("INFO", ⟨1, some ⟨32⟩⟩), ("WARN", ⟨2, some ⟨33⟩⟩),
   ("ERROR", ⟨3, some ⟨31⟩⟩), ("FATAL", ⟨4, some ⟨31⟩⟩), ("NONE", ⟨numberMaxValue, none⟩)]

/-- The registry after the module-load registrations. -/
def defaultRegistry : LevelRegistry :=
  builtinLevels.foldl (fun r p => (addLoggerLevel r p.1 p.2).1) emptyRegistry

/- ## coloredLog (src/util.ts) -/

/-- Number.prototype.toString padStart(2, "0"), for Date components. -/
def pad2 (n : Nat) : String :=
  String.mk (List.replicate (2 - (toString n).length) '0') ++ toString n

/-- String.prototype.padEnd(n, " "). -/
def padEndN (n : Nat) (s : String) : String :=
  s ++ String.mk (List.replicate (n - s.length) ' ')

/-- src/util.ts coloredLog: the timestamp and level-tag prefix.  Looking up an
unregistered level name throws in JS (reading .formatting of undefined),
modelled by none. -/
def coloredLog (levelName : String) (t : Time) : Option String :=
  match lookupLevel defaultRegistry levelName with
  | none => none
  | some lvl =>
    some ("\x1b[90m[" ++ pad2 t.h ++ ":" ++ pad2 t.m ++ ":" ++ pad2 t.s ++ "]\x1b[39m \x1b[" ++
      toString ((lvl.formatting.map LevelFormatting.ansiColor).getD 34) ++ "m" ++
      padEndN 7 ("[" ++ levelName ++ "]") ++ "\x1b[39m ")

/- ## Claims C5, C6, C7 -/

/-- C5 counterexample: stripFormatting is not idempotent.  Deleting the
escape sequence ESC [ 3 1 m from "\x1b\x1b[31mm" glues the leading ESC to
the trailing m, creating a new match, so a second strip removes more. -/
theorem c5_counterexample :
    stripANSIFormatting (stripANSIFormatting "\x1b\x1b[31mm") ≠
      stripANSIFormatting "\x1b\x1b[31mm" ∧
    stripANSIFormatting "\x1b\x1b[31mm" = "\x1bm" ∧
    stripANSIFormatting "\x1bm" = "" := by
  refine ⟨?_, by decide, by decide⟩
  decide

/-- C5 (amended): stripFormatting is a no-op — hence a second application is
the identity — whenever its result no longer contains an escape-introducer
character (ESC or CSI), which every match of the stripping regex begins
with; it is not idempotent on arbitrary strings. -/
theorem c5_strip_idempotent_on_clean (s : String)
    (h : noIntroStr (stripANSIFormatting s) = true) :
    stripANSIFormatting (stripANSIFormatting s) = stripANSIFormatting s :=
  strip_of_clean (stripANSIFormatting s) h

/-- C5 witness: the spec's own example string, stripped once, is clean, and
stripping it again is a no-op. -/
theorem c5_witness :
    noIntroStr (stripANSIFormatting "\x1b[33mHello\x1b[39m World!") = true ∧
    stripANSIFormatting (stripANSIFormatting "\x1b[33mHello\x1b[39m World!") =
      stripANSIFormatting "\x1b[33mHello\x1b[39m World!" ∧
    stripANSIFormatting "\x1b[33mHello\x1b[39m World!" = "Hello World!" :=
  ⟨by decide, c5_strip_idempotent_on_clean "\x1b[33mHello\x1b[39m World!" (by decide), by decide⟩

/-- C6 counterexample: for DEBUG at 05:09:02 coloredLog yields the tag
"[DEBUG]" with no trailing spaces before the color reset — "[DEBUG]" is
already 7 characters wide, so padEnd(7) adds nothing — while the claim
demands two trailing spaces. -/
theorem c6_counterexample :
    coloredLog "DEBUG" ⟨5, 9, 2⟩ =
      some "\x1b[90m[05:09:02]\x1b[39m \x1b[34m[DEBUG]\x1b[39m " ∧
    "\x1b[90m[05:09:02]\x1b[39m \x1b[34m[DEBUG]\x1b[39m " ≠
      "\x1b[90m[05:09:02]\x1b[39m \x1b[34m[DEBUG]  \x1b[39m " := by
  constructor
  · decide
  · decide

/-- C6 (amended): for every registered level and call time, coloredLog
produces the dim-colored zero-padded [HH:MM:SS], a space, the level-colored
[LEVELNAME] padded with trailing spaces to width 7 (so [DEBUG], [ERROR] and
[FATAL] — already 7 characters — gain none), and a trailing space; for DEBUG
at 05:09:02 the output has no spaces between [DEBUG] and the color reset. -/
theorem c6_colored_prefix_grammar :
    (∀ (name : String) (d : LoggerLevelData) (t : Time),
      lookupLevel defaultRegistry name = some d →
      coloredLog name t =
        some ("\x1b[90m[" ++ pad2 t.h ++ ":" ++ pad2 t.m ++ ":" ++ pad2 t.s ++ "]\x1b[39m \x1b[" ++
          toString ((d.formatting.map LevelFormatting.ansiColor).getD 34) ++ "m" ++
          padEndN 7 ("[" ++ name ++ "]") ++ "\x1b[39m ")) ∧
    coloredLog "DEBUG" ⟨5, 9, 2⟩ =
      some "\x1b[90m[05:09:02]\x1b[39m \x1b[34m[DEBUG]\x1b[39m " := by
  constructor
  · intro name d t h
    unfold coloredLog
    rw [h]
  · decide

/-- C6 witness: the grammar instantiated at the registered DEBUG level. -/
theorem c6_witness :
    lookupLevel defaultRegistry "DEBUG" = some ⟨0, some ⟨34⟩⟩ ∧
    coloredLog "DEBUG" ⟨23, 0, 7⟩ =
      some ("\x1b[90m[" ++ pad2 23 ++ ":" ++ pad2 0 ++ ":" ++ pad2 7 ++ "]\x1b[39m \x1b[" ++
        toString ((((⟨0, some ⟨34⟩⟩ : LoggerLevelData)).formatting.map LevelFormatting.ansiColor).getD 34) ++ "m" ++
        padEndN 7 ("[" ++ "DEBUG" ++ "]") ++ "\x1b[39m ") :=
  ⟨by decide, c6_colored_prefix_grammar.1 "DEBUG" ⟨0, some ⟨34⟩⟩ ⟨23, 0, 7⟩ (by decide)⟩

/-- C7: addLoggerLevel fails exactly when the uppercased name is already
registered or the importance is already taken; a failure leaves both the
name table and the importance index untouched; a success appends the
descriptor (with formatting defaulted) under the uppercased name to both
tables and returns it. -/
theorem c7_addLoggerLevel_spec (reg : LevelRegistry) (identifier : String)
    (data : LoggerLevelData) :
    ((∃ e, (addLoggerLevel reg identifier data).2 = Except.error e) ↔
      ((reg.levels.lookup (jsToUpperCase identifier)).isSome = true ∨
       (reg.levelsByImportance.lookup data.importance).isSome = true))
    ∧ ((∃ e, (addLoggerLevel reg identifier data).2 = Except.error e) →
        (addLoggerLevel reg identifier data).1 = reg)
    ∧ (∀ d, (addLoggerLevel reg identifier data).2 = Except.ok d →
        d = ⟨data.importance, some (data.formatting.getD ⟨34⟩)⟩ ∧
        (addLoggerLevel reg identifier data).1.levels =
          reg.levels ++ [(jsToUpperCase identifier, d)] ∧
        (addLoggerLevel reg identifier data).1.levelsByImportance =
          reg.levelsByImportance ++ [(data.importance, jsToUpperCase identifier)]) := by
  unfold addLoggerLevel
  by_cases h1 : (reg.levels.lookup (jsToUpperCase identifier)).isSome = true
  · simp [h1]
  · by_cases h2 : (reg.levelsByImportance.lookup data.importance).isSome = true
    · simp [h1, h2]
    · simp [h1, h2]

/-- C7 witness: registering "debug" in the empty registry succeeds, inserts
the descriptor under "DEBUG" in both tables, and returns it with the
default color. -/
theorem c7_witness :
    (addLoggerLevel emptyRegistry "debug" ⟨0, none⟩).1.levels =
      [("DEBUG", ⟨0, some ⟨34⟩⟩)] ∧
    (addLoggerLevel emptyRegistry "debug" ⟨0, none⟩).1.levelsByImportance =
      [(0, "DEBUG")] := by
  have h := (c7_addLoggerLevel_spec emptyRegistry "debug" ⟨0, none⟩).2.2
    ⟨0, some ⟨34⟩⟩ rfl
  exact ⟨h.2.1, h.2.2⟩

/- ## The current Logger (src/logger.ts)

A Logger owns a list of stream entries, an optional identifier, the set of
bound pinned lines (insertion-ordered), and the per-tty previousLineSize
map.  Stream entries are stored in the raw LoggerStream shape: the
constructor normalizes them (normalizeStream) but addStream pushes the
given object verbatim, so at runtime the list may hold both shapes.  The
oid fields model JavaScript object identity. -/

/-- The level field of a LoggerStream: a level name, a numeric threshold,
or a predicate on importances (what the constructor normalizes to). -/
inductive LevelField where
  | str : String → LevelField
  | num : Int → LevelField
  | func : (Int → Bool) → LevelField

/-- Possible results of an interceptData hook. -/
inductive DataIntercept where
  | undef : DataIntercept
  | null : DataIntercept
  | other : DataIntercept
  | replace : List String → DataIntercept

/-- Possible results of an interceptString hook. -/
inductive StrIntercept where
  | undef : StrIntercept
  | null : StrIntercept
  | other : StrIntercept
  | replace : String → StrIntercept

/-- A pinned line: identity tag, bound level name, mutable content. -/
structure PinLine where
  oid : Nat
  level : String
  content : Option String

mutual

inductive Sink where
  | writable : Nat → Sink
  | fsWriteStream : Nat → Sink
  | tty : Nat → Nat → Sink
  | nestedLogger : LoggerState → Sink

inductive SEntry where
  | mk : Nat → Sink → Option LevelField → Option (String → Time → String) → Option Bool →
      Option (List String → String → DataIntercept) →
      Option (String → String → StrIntercept) → SEntry

inductive LoggerState where
  | mk : List SEntry → Option String → List PinLine → List (Nat × Nat) → LoggerState

end

def SEntry.oid : SEntry → Nat
  | .mk o _ _ _ _ _ _ => o

def SEntry.sink : SEntry → Sink
  | .mk _ k _ _ _ _ _ => k

def SEntry.levelF : SEntry → Option LevelField
  | .mk _ _ l _ _ _ _ => l

def SEntry.prefixFn : SEntry → Option (String → Time → String)
  | .mk _ _ _ p _ _ _ => p

def SEntry.allowPinned : SEntry → Option Bool
  | .mk _ _ _ _ a _ _ => a

def SEntry.icData : SEntry → Option (List String → String → DataIntercept)
  | .mk _ _ _ _ _ d _ => d

def SEntry.icString : SEntry → Option (String → String → StrIntercept)
  | .mk _ _ _ _ _ _ s => s

def setSink : SEntry → Sink → SEntry
  | .mk o _ l p a d s, k => .mk o k l p a d s

def LoggerState.streams : LoggerState → List SEntry
  | .mk ss _ _ _ => ss

def LoggerState.identifier : LoggerState → Option String
  | .mk _ i _ _ => i

def LoggerState.pinned : LoggerState → List PinLine
  | .mk _ _ p _ => p

def LoggerState.prevSizes : LoggerState → List (Nat × Nat)
  | .mk _ _ _ m => m

/-- Calling stream.level(importance): a TypeError unless the stored field
is a function (the constructor guarantees that; addStream does not). -/
def applyLevel (lf : Option LevelField) (importance : Int) : Except String Bool :=
  match lf with
  | some (.func f) => Except.ok (f importance)
  | _ => Except.error "stream.level is not a function"

/-- message.split('\n').map(f).join('\n'). -/
def mapLines (f : String → String) (s : String) : String :=
  String.intercalate "\n" ((s.splitOn "\n").map f)

/-- Map.prototype.set on the previousLineSize association list. -/
def setAssoc (m : List (Nat × Nat)) (k v : Nat) : List (Nat × Nat) :=
  if (m.lookup k).isSome then m.map (fun p => if p.1 == k then (k, v) else p)
  else m ++ [(k, v)]

/-- src/logger.ts Logger.dataToMessage: format the data, run the
string-interceptor (three-outcome contract, invalid result throws), then
either prepend the identifier per line (nested-logger sinks) or apply the
prefix per line and strip ANSI codes for fs.WriteStream sinks.  Returns
none when the interceptor suppressed the message. -/
def dataToMessage (s : SEntry) (identifier : Option String) (level : String)
    (data : List String) (t : Time) : Except String (Option String) :=
  let message := formatData data
  match (match s.icString with
         | some g =>
           match g message level with
           | .replace m => Except.ok (some m)
           | .null => Except.ok none
           | .undef => Except.ok (some message)
           | .other => Except.error "interceptString returned an invalid type"
         | none => Except.ok (some message)) with
  | .error e => Except.error e
  | .ok none => Except.ok none
  | .ok (some m1) =>
    match s.sink with
    | .nestedLogger _ =>
      match identifier with
      | some ident => Except.ok (some (mapLines (fun line => ident ++ " " ++ line) m1))
      | none => Except.ok (some m1)
    | _ =>
      let m2 := match s.prefixFn with
        | some p => mapLines (fun line => p level t ++ line) m1
        | none => m1
      match s.sink with
      | .fsWriteStream _ => Except.ok (some (stripANSIFormatting m2))
      | _ => Except.ok (some m2)

/-- The forEach body of Logger.writePinnedLines over the bound pinned
lines.  The enclosing function is async and its promise is never awaited,
so a throw inside the loop stops the iteration without surfacing; that is
modelled by returning the events emitted so far. -/
def renderPins (s : SEntry) (identifier : Option String) (tid cols : Nat) (t : Time) :
    List PinLine → List Event
  | [] => []
  | p :: rest =>
    match lookupLevel defaultRegistry p.level with
    | none => []
    | some ld =>
      match applyLevel s.levelF ld.importance with
      | .error _ => []
      | .ok false => renderPins s identifier tid cols t rest
      | .ok true =>
        match dataToMessage s identifier p.level [p.content.getD ""] t with
        | .error _ => []
        | .ok none => renderPins s identifier tid cols t rest
        | .ok (some msg) =>
          let content := String.mk (((msg.splitOn "\n").headD "").data.take cols)
          [Event.cursorTo tid 0, Event.clearLine tid 0, Event.write tid content,
            Event.write tid "\n"] ++ renderPins s identifier tid cols t rest

/-- src/logger.ts Logger.writePinnedLines: rewind the cursor over the
previously rendered pinned region, record the new pinned count, clear the
line, write the scrolled content (if any), then re-render every admitted
pinned line truncated to the terminal width. -/
def writePinnedLines (s : SEntry) (identifier : Option String) (pins : List PinLine)
    (prev : List (Nat × Nat)) (tid cols : Nat) (contentAbove : Option String) (t : Time) :
    List Event × List (Nat × Nat) :=
  let prevCount := (prev.lookup tid).getD 0
  let prev2 := setAssoc prev tid pins.length
  ([Event.moveCursor tid 0 (-(Int.ofNat prevCount)), Event.cursorTo tid 0,
      Event.clearLine tid 0] ++
    (match contentAbove with
     | some c => if c == "" then [] else [Event.write tid c]
     | none => []) ++
    renderPins s identifier tid cols t pins, prev2)

/-- src/logger.ts Logger.writeToStream, parametrized by the recursive call
used when the sink is a nested Logger (that branch is unreachable from
logData, which handles Logger sinks first, but is kept faithfully). -/
def writeToStreamG
    (recur : LoggerState → String → List String → Time → Except String (List Event × LoggerState))
    (s : SEntry) (identifier : Option String) (pins : List PinLine)
    (prev : List (Nat × Nat)) (level : String) (dataStr : String) (t : Time) :
    Except String (List Event × Sink × List (Nat × Nat)) :=
  match s.sink with
  | .nestedLogger nl =>
    match recur nl level [dataStr] t with
    | .error e => Except.error e
    | .ok (evs, nl2) => Except.ok (evs, Sink.nestedLogger nl2, prev)
  | .tty tid cols =>
    if s.allowPinned.getD false then
      let r := writePinnedLines s identifier pins prev tid cols (some dataStr) t
      Except.ok (r.1, s.sink, r.2)
    else Except.ok ([Event.write tid dataStr], s.sink, prev)
  | .writable i => Except.ok ([Event.write i dataStr], s.sink, prev)
  | .fsWriteStream i => Except.ok ([Event.write i dataStr], s.sink, prev)

/-- src/logger.ts Logger.logData: build the message; on suppression do
nothing; forward to a nested Logger as a single value at the same level;
otherwise append the newline and write. -/
def logDataG
    (recur : LoggerState → String → List String → Time → Except String (List Event × LoggerState))
    (s : SEntry) (identifier : Option String) (pins : List PinLine)
    (prev : List (Nat × Nat)) (level : String) (data : List String) (t : Time) :
    Except String (List Event × Sink × List (Nat × Nat)) :=
  match dataToMessage s identifier level data t with
  | .error e => Except.error e
  | .ok none => Except.ok ([], s.sink, prev)
  | .ok (some msg) =>
    match s.sink with
    | .nestedLogger nl =>
      match recur nl level [msg] t with
      | .error e => Except.error e
      | .ok (evs, nl2) => Except.ok (evs, Sink.nestedLogger nl2, prev)
    | _ => writeToStreamG recur s identifier pins prev level (msg ++ "\n") t

/-- The interception block of src/logger.ts Logger.log: run only when the
admission predicate admitted the importance; an array replaces the data, a
null suppresses the stream, undefined passes through, and anything else
throws a TypeError. -/
def interceptStep (s : SEntry) (admits : Bool) (data : List String) (level : String) :
    Except String (Option (List String)) :=
  if admits then
    match s.icData with
    | some f =>
      match f data level with
      | .replace xs => Except.ok (some xs)
      | .null => Except.ok none
      | .undef => Except.ok (some data)
      | .other => Except.error "interceptData returned an invalid type"
    | none => Except.ok (some data)
  else Except.ok (some data)

/-- The for-of loop of src/logger.ts Logger.log.  For each stream: look up
the called level's importance (a TypeError for unregistered names), call
the stored level field on it, and only when it admits run the
data-interceptor.  Note that logData runs unconditionally afterwards — in
the source it sits outside the admission if — and that a replacement
assigned to data persists for the remaining streams of the same call.
Returns the emitted events, the rebuilt stream list, the updated
previousLineSize map, and the final data array. -/
def logStreamsG
    (recur : LoggerState → String → List String → Time → Except String (List Event × LoggerState))
    (streams : List SEntry) (identifier : Option String) (pins : List PinLine)
    (prev : List (Nat × Nat)) (level : String) (data : List String) (t : Time) :
    Except String (List Event × List SEntry × List (Nat × Nat) × List String) :=
  match streams with
  | [] => Except.ok ([], [], prev, data)
  | s :: rest =>
    match lookupLevel defaultRegistry level with
    | none => Except.error "Cannot read properties of undefined"
    | some ld =>
      match applyLevel s.levelF ld.importance with
      | .error e => Except.error e
      | .ok admits =>
        match interceptStep s admits data level with
        | .error e => Except.error e
        | .ok none =>
          match logStreamsG recur rest identifier pins prev level data t with
          | .error e => Except.error e
          | .ok (evs, rest2, prev2, d2) => Except.ok (evs, s :: rest2, prev2, d2)
        | .ok (some d1) =>
          match logDataG recur s identifier pins prev level d1 t with
          | .error e => Except.error e
          | .ok (evs1, sink2, prev1) =>
            match logStreamsG recur rest identifier pins prev1 level d1 t with
            | .error e => Except.error e
            | .ok (evs2, rest2, prev2, d2) =>
              Except.ok (evs1 ++ evs2, setSink s sink2 :: rest2, prev2, d2)

/-- src/logger.ts Logger.log, with fuel bounding recursion through nested
loggers (configurations are finite trees, so any fuel above the nesting
depth is exact; exhausted fuel contributes nothing). -/
def logV2F : Nat → LoggerState → String → List String → Time →
    Except String (List Event × LoggerState)
  | 0, l, _, _, _ => Except.ok ([], l)
  | fuel + 1, LoggerState.mk streams identifier pins prev, level, data, t =>
    match logStreamsG (logV2F fuel) streams identifier pins prev level data t with
    | .error e => Except.error e
    | .ok (evs, streams2, prev2, _) =>
      Except.ok (evs, LoggerState.mk streams2 identifier pins prev2)

/-- Figure of the defaulted prefix installed by the constructor: the
coloredLog generator (only ever invoked on registered level names, where
coloredLog is total). -/
def defaultColoredPrefixFn (level : String) (t : Time) : String :=
  (coloredLog level t).getD ""

/-- src/logger.ts Logger constructor normalization of one LoggerStream:
default the prefix to coloredLog, the level to "DEBUG", resolve a level
name through the registry (a TypeError for unknown names), turn a numeric
threshold into the predicate importance >= threshold, and default
allowPinnedLines to true. -/
def normalizeStream (s : SEntry) : Except String SEntry :=
  match (match s.levelF.getD (LevelField.str "DEBUG") with
         | .str name =>
           match lookupLevel defaultRegistry name with
           | some d => Except.ok (LevelField.num d.importance)
           | none => Except.error "Cannot read properties of undefined"
         | lf => Except.ok lf) with
  | .error e => Except.error e
  | .ok lf1 =>
    let lf2 := match lf1 with
      | .num n => LevelField.func (fun i => decide (n ≤ i))
      | x => x
    Except.ok (SEntry.mk s.oid s.sink (some lf2) (some (s.prefixFn.getD defaultColoredPrefixFn))
      (some (s.allowPinned.getD true)) s.icData s.icString)

/-- The .map over the configured streams in the constructor: elementwise
in order, aborting on the first throw. -/
def normalizeStreams : List SEntry → Except String (List SEntry)
  | [] => Except.ok []
  | s :: rest =>
    match normalizeStream s with
    | .error e => Except.error e
    | .ok s2 =>
      match normalizeStreams rest with
      | .error e => Except.error e
      | .ok rest2 => Except.ok (s2 :: rest2)

/-- src/logger.ts Logger constructor: normalize every configured stream
(defaulting to a single process.stdout stream when none are given) and
start with no pinned lines and an empty previousLineSize map. -/
def mkLogger (streamsOpt : Option (List SEntry)) (identifier : Option String)
    (stdoutSink : Sink) : Except String LoggerState :=
  match normalizeStreams (match streamsOpt with
         | some l => l
         | none => [SEntry.mk 0 stdoutSink none none none none none]) with
  | .error e => Except.error e
  | .ok ss => Except.ok (LoggerState.mk ss identifier [] [])

/-- src/logger.ts Logger.addStream: Array.prototype.includes compares the
LoggerStream objects themselves (SameValueZero, i.e. object identity,
modelled by oid), pushing the given object verbatim when absent. -/
def addStream (l : LoggerState) (s : SEntry) : LoggerState :=
  match l with
  | .mk streams identifier pins prev =>
    if streams.any (fun x => x.oid == s.oid) then LoggerState.mk streams identifier pins prev
    else LoggerState.mk (streams ++ [s]) identifier pins prev

/-- src/logger.ts Logger.isPinnedLineBound: Set membership is object
identity. -/
def isPinnedLineBound (l : LoggerState) (line : PinLine) : Bool :=
  l.pinned.any (fun p => p.oid == line.oid)

/-- src/logger.ts Logger.releasePinnedLine: when the line is bound, delete
it from the set and re-emit its content as a standard log call at its
level; otherwise return false having done nothing. -/
def releasePinnedLine (fuel : Nat) (l : LoggerState) (line : PinLine) (t : Time) :
    Bool × Except String (List Event × LoggerState) :=
  if isPinnedLineBound l line then
    let l2 := LoggerState.mk l.streams l.identifier
      (l.pinned.filter (fun p => p.oid != line.oid)) l.prevSizes
    (true, logV2F fuel l2 line.level [line.content.getD ""] t)
  else (false, Except.ok ([], l))

/- ## Helper lemmas about the Logger model -/

/-- Whether the stored level field is a callable predicate. -/
def isLevelFunc : Option LevelField → Bool
  | some (.func _) => true
  | _ => false

/-- The same stream entry with its data-interceptor removed. -/
def stripIcData (s : SEntry) : SEntry :=
  SEntry.mk s.oid s.sink s.levelF s.prefixFn s.allowPinned none s.icString

/-- Forget the rebuilt stream list of a logStreamsG result, keeping the
events, the previousLineSize map and the final data. -/
def dropStreams
    (r : Except String (List Event × List SEntry × List (Nat × Nat) × List String)) :
    Except String (List Event × List (Nat × Nat) × List String) :=
  r.map (fun x => (x.1, x.2.2))

theorem logStreamsG_append
    (recur : LoggerState → String → List String → Time → Except String (List Event × LoggerState))
    (l1 l2 : List SEntry) (identifier : Option String) (pins : List PinLine)
    (prev : List (Nat × Nat)) (level : String) (data : List String) (t : Time) :
    logStreamsG recur (l1 ++ l2) identifier pins prev level data t =
      match logStreamsG recur l1 identifier pins prev level data t with
      | .error e => Except.error e
      | .ok (evs1, ss1, prev1, d1) =>
        match logStreamsG recur l2 identifier pins prev1 level d1 t with
        | .error e => Except.error e
        | .ok (evs2, ss2, prev2, d2) => Except.ok (evs1 ++ evs2, ss1 ++ ss2, prev2, d2) := by
  induction l1 generalizing prev data with
  | nil =>
    cases h : logStreamsG recur l2 identifier pins prev level data t with
    | error e => simp only [List.nil_append, logStreamsG, h]
    | ok r =>
      rcases r with ⟨evs2, ss2, prev2, d2⟩
      simp [logStreamsG, h]
  | cons s rest ih =>
    cases hl : lookupLevel defaultRegistry level with
    | none => simp only [List.cons_append, logStreamsG, hl]
    | some ld =>
      cases ha : applyLevel s.levelF ld.importance with
      | error e => simp only [List.cons_append, logStreamsG, hl, ha]
      | ok admits =>
        cases hi : interceptStep s admits data level with
        | error e => simp only [List.cons_append, logStreamsG, hl, ha, hi]
        | ok od =>
          cases od with
          | none =>
            simp only [List.cons_append, logStreamsG, hl, ha, hi, List.append_eq]
            rw [ih]
            cases hr : logStreamsG recur rest identifier pins prev level data t with
            | error e => simp [hr]
            | ok r =>
              rcases r with ⟨evs1, ss1, prev1, d1⟩
              cases h2 : logStreamsG recur l2 identifier pins prev1 level d1 t with
              | error e => simp [hr, h2]
              | ok r2 =>
                rcases r2 with ⟨evs2, ss2, prev2, d2⟩
                simp [hr, h2]
          | some d1 =>
            cases hd : logDataG recur s identifier pins prev level d1 t with
            | error e => simp only [List.cons_append, logStreamsG, hl, ha, hi, hd]
            | ok rd =>
              rcases rd with ⟨evs1, sink2, prev1⟩
              simp only [List.cons_append, logStreamsG, hl, ha, hi, hd, List.append_eq]
              rw [ih]
              cases hr : logStreamsG recur rest identifier pins prev1 level d1 t with
              | error e => simp [hr]
              | ok r =>
                rcases r with ⟨evs2, ss2, prev2, d2⟩
                cases h2 : logStreamsG recur l2 identifier pins prev2 level d2 t with
                | error e => simp [hr, h2]
                | ok r2 =>
                  rcases r2 with ⟨evs3, ss3, prev3, d3⟩
                  simp [hr, h2, List.append_assoc]

theorem logStreamsG_badLevel_head
    (recur : LoggerState → String → List String → Time → Except String (List Event × LoggerState))
    (e : SEntry) (rest : List SEntry) (identifier : Option String) (pins : List PinLine)
    (prev : List (Nat × Nat)) (level : String) (data : List String) (t : Time)
    (hbad : isLevelFunc e.levelF = false) :
    ∃ msg, logStreamsG recur (e :: rest) identifier pins prev level data t =
      Except.error msg := by
  cases hl : lookupLevel defaultRegistry level with
  | none => exact ⟨"Cannot read properties of undefined", by simp only [logStreamsG, hl]⟩
  | some ld =>
    have happ : applyLevel e.levelF ld.importance =
        Except.error "stream.level is not a function" := by
      unfold applyLevel
      cases hf : e.levelF with
      | none => rfl
      | some lf =>
        cases lf with
        | str name => rfl
        | num n => rfl
        | func f =>
          rw [hf] at hbad
          simp [isLevelFunc] at hbad
    exact ⟨"stream.level is not a function", by simp only [logStreamsG, hl, happ]⟩

theorem logV2F_pinned_preserved (fuel : Nat) (l : LoggerState) (level : String)
    (data : List String) (t : Time) (evs : List Event) (l2 : LoggerState)
    (h : logV2F fuel l level data t = Except.ok (evs, l2)) :
    l2.pinned = l.pinned := by
  cases fuel with
  | zero =>
    simp only [logV2F] at h
    cases h
    rfl
  | succ f =>
    cases l with
    | mk ss identifier pins prev =>
      simp only [logV2F] at h
      cases hr : logStreamsG (logV2F f) ss identifier pins prev level data t with
      | error e => rw [hr] at h; cases h
      | ok r =>
        rcases r with ⟨a, b, c, d⟩
        rw [hr] at h
        cases h
        rfl

theorem normalizeStream_ok_func (s e : SEntry) (h : normalizeStream s = Except.ok e) :
    isLevelFunc e.levelF = true := by
  unfold normalizeStream at h
  cases hlf : s.levelF.getD (LevelField.str "DEBUG") with
  | str name =>
    simp only [hlf] at h
    cases hll : lookupLevel defaultRegistry name with
    | none => simp [hll] at h
    | some d =>
      simp only [hll] at h
      injection h with h2
      subst h2
      rfl
  | num n =>
    simp only [hlf] at h
    injection h with h2
    subst h2
    rfl
  | func f =>
    simp only [hlf] at h
    injection h with h2
    subst h2
    rfl

theorem normalizeStreams_mem (raws ss : List SEntry)
    (h : normalizeStreams raws = Except.ok ss) :
    ∀ e, e ∈ ss → ∃ r, normalizeStream r = Except.ok e := by
  induction raws generalizing ss with
  | nil =>
    simp only [normalizeStreams] at h
    cases h
    intro e he
    cases he
  | cons s rest ih =>
    simp only [normalizeStreams] at h
    cases hs : normalizeStream s with
    | error e0 => rw [hs] at h; cases h
    | ok s2 =>
      rw [hs] at h
      cases hr : normalizeStreams rest with
      | error e0 => rw [hr] at h; cases h
      | ok rest2 =>
        rw [hr] at h
        cases h
        intro e he
        cases he with
        | head => exact ⟨s, hs⟩
        | tail _ hmem => exact ih rest2 hr e hmem

theorem stripIcData_levelF (s : SEntry) : (stripIcData s).levelF = s.levelF := by
  cases s
  rfl

theorem stripIcData_sink (s : SEntry) : (stripIcData s).sink = s.sink := by
  cases s
  rfl

theorem stripIcData_allowPinned (s : SEntry) : (stripIcData s).allowPinned = s.allowPinned := by
  cases s
  rfl

theorem dataToMessage_stripIcData (s : SEntry) (identifier : Option String) (level : String)
    (data : List String) (t : Time) :
    dataToMessage (stripIcData s) identifier level data t =
      dataToMessage s identifier level data t := by
  cases s
  rfl

theorem renderPins_stripIcData (s : SEntry) (identifier : Option String) (tid cols : Nat)
    (t : Time) (pins : List PinLine) :
    renderPins (stripIcData s) identifier tid cols t pins =
      renderPins s identifier tid cols t pins := by
  induction pins with
  | nil => rfl
  | cons p rest ih =>
    simp only [renderPins, stripIcData_levelF, dataToMessage_stripIcData, ih]

theorem writePinnedLines_stripIcData (s : SEntry) (identifier : Option String)
    (pins : List PinLine) (prev : List (Nat × Nat)) (tid cols : Nat)
    (contentAbove : Option String) (t : Time) :
    writePinnedLines (stripIcData s) identifier pins prev tid cols contentAbove t =
      writePinnedLines s identifier pins prev tid cols contentAbove t := by
  unfold writePinnedLines
  rw [renderPins_stripIcData]

theorem writeToStreamG_stripIcData
    (recur : LoggerState → String → List String → Time → Except String (List Event × LoggerState))
    (s : SEntry) (identifier : Option String) (pins : List PinLine)
    (prev : List (Nat × Nat)) (level : String) (dataStr : String) (t : Time) :
    writeToStreamG recur (stripIcData s) identifier pins prev level dataStr t =
      writeToStreamG recur s identifier pins prev level dataStr t := by
  unfold writeToStreamG
  simp only [stripIcData_sink, stripIcData_allowPinned, writePinnedLines_stripIcData]

theorem logDataG_stripIcData
    (recur : LoggerState → String → List String → Time → Except String (List Event × LoggerState))
    (s : SEntry) (identifier : Option String) (pins : List PinLine)
    (prev : List (Nat × Nat)) (level : String) (data : List String) (t : Time) :
    logDataG recur (stripIcData s) identifier pins prev level data t =
      logDataG recur s identifier pins prev level data t := by
  unfold logDataG
  simp only [dataToMessage_stripIcData, stripIcData_sink, writeToStreamG_stripIcData]

/- ## Claims C1, C4, C9 -/

/-- A target with a WARN admission threshold on a plain writable sink. -/
def c1Stream : SEntry :=
  SEntry.mk 0 (Sink.writable 0) (some (LevelField.func (fun i => decide (2 ≤ i)))) none none
    none none

def c1Logger : LoggerState := LoggerState.mk [c1Stream] none [] []

/-- C1: the admission predicate is NOT enforced for writes.  The target's
predicate (threshold WARN = 2) rejects the DEBUG importance 0, yet the log
call still writes "x\n" to the target's destination, because in
Logger.log the logData call sits outside the admission if.  This
contradicts the spec, the level field's own documentation example ("No
output") and the repository's level-respecting test. -/
theorem c1_admission_gate_not_enforced :
    applyLevel c1Stream.levelF 0 = Except.ok false ∧
    lookupLevel defaultRegistry "DEBUG" = some ⟨0, some ⟨34⟩⟩ ∧
    logV2F 1 c1Logger "DEBUG" ["x"] ⟨0, 0, 0⟩ =
      Except.ok ([Event.write 0 "x\n"], c1Logger) :=
  ⟨rfl, by decide, rfl⟩

/-- First c4 target: its data-interceptor replaces the values. -/
def c4Stream1 : SEntry :=
  SEntry.mk 1 (Sink.writable 1) (some (LevelField.func (fun _ => true))) none none
    (some (fun _ _ => DataIntercept.replace ["replaced"])) none

/-- Second c4 target: no interceptor at all. -/
def c4Stream2 : SEntry :=
  SEntry.mk 2 (Sink.writable 2) (some (LevelField.func (fun _ => true))) none none none none

def c4Logger : LoggerState := LoggerState.mk [c4Stream1, c4Stream2] none [] []

/-- C4 counterexample: when the first target's interceptor replaces
["original"] by ["replaced"], the second target of the same call writes
the replaced values too — data is reassigned in the loop and persists —
so it does not receive the original values as the claim states. -/
theorem c4_counterexample :
    logV2F 1 c4Logger "INFO" ["original"] ⟨0, 0, 0⟩ =
      Except.ok ([Event.write 1 "replaced\n", Event.write 2 "replaced\n"], c4Logger) ∧
    Event.write 2 "original\n" ∉ [Event.write 1 "replaced\n", Event.write 2 "replaced\n"] :=
  ⟨rfl, by decide⟩

/-- C4 (amended): when a target's data-interceptor returns a replacement
array, the rest of the call behaves exactly as if that target had no
data-interceptor and the call had been made with the replacement values:
the replacement is not re-intercepted by the same target, and it persists
as the data seen by every later target of the same call (later targets do
not receive the original values).  Stated up to the rebuilt stream list,
which differs only in the removed interceptor field. -/
theorem c4_replacement_persists
    (recur : LoggerState → String → List String → Time → Except String (List Event × LoggerState))
    (s : SEntry) (rest : List SEntry) (identifier : Option String) (pins : List PinLine)
    (prev : List (Nat × Nat)) (level : String) (data : List String) (t : Time)
    (xs : List String) (ld : LoggerLevelData) (f : Int → Bool)
    (g : List String → String → DataIntercept)
    (hlv : lookupLevel defaultRegistry level = some ld)
    (hf : s.levelF = some (LevelField.func f)) (hadm : f ld.importance = true)
    (hg : s.icData = some g) (hrep : g data level = DataIntercept.replace xs) :
    dropStreams (logStreamsG recur (s :: rest) identifier pins prev level data t) =
      dropStreams (logStreamsG recur (stripIcData s :: rest) identifier pins prev level xs t) := by
  have hfs : (stripIcData s).levelF = some (LevelField.func f) := by
    rw [stripIcData_levelF, hf]
  have hil : applyLevel s.levelF ld.importance = Except.ok true := by
    simp only [applyLevel, hf, hadm]
  have hir : applyLevel (stripIcData s).levelF ld.importance = Except.ok true := by
    simp only [applyLevel, hfs, hadm]
  have hstep : interceptStep s true data level = Except.ok (some xs) := by
    simp only [interceptStep, hg, hrep, if_true]
  have hicn : (stripIcData s).icData = none := by
    cases s
    rfl
  have hstep2 : interceptStep (stripIcData s) true xs level = Except.ok (some xs) := by
    simp only [interceptStep, hicn, if_true]
  simp only [logStreamsG, hlv, hil, hir, hstep, hstep2, logDataG_stripIcData]
  cases hd : logDataG recur s identifier pins prev level xs t with
  | error e => simp [dropStreams]
  | ok rd =>
    rcases rd with ⟨evs1, sink2, prev1⟩
    cases hr : logStreamsG recur rest identifier pins prev1 level xs t with
    | error e => simp [dropStreams, hr]
    | ok r =>
      rcases r with ⟨evs2, ss2, prev2, d2⟩
      simp [dropStreams, hr, Except.map]

/-- C4 witness: the amended equation instantiated at the counterexample
configuration. -/
theorem c4_witness :
    dropStreams (logStreamsG (logV2F 0) (c4Stream1 :: [c4Stream2]) none [] [] "INFO"
        ["original"] ⟨0, 0, 0⟩) =
      dropStreams (logStreamsG (logV2F 0) (stripIcData c4Stream1 :: [c4Stream2]) none [] []
        "INFO" ["replaced"] ⟨0, 0, 0⟩) :=
  c4_replacement_persists (logV2F 0) c4Stream1 [c4Stream2] none [] [] "INFO" ["original"]
    ⟨0, 0, 0⟩ ["replaced"] ⟨1, some ⟨32⟩⟩ (fun _ => true)
    (fun _ _ => DataIntercept.replace ["replaced"]) (by decide) rfl rfl rfl rfl

/-- A target whose destination handle is the writable sink 5. -/
def c9Existing : SEntry := SEntry.mk 0 (Sink.writable 5) none none none none none

/-- A distinct target object with the same destination handle 5. -/
def c9Dup : SEntry := SEntry.mk 1 (Sink.writable 5) none none none none none

def c9Logger : LoggerState := LoggerState.mk [c9Existing] none [] []

/-- C9 counterexample: addStream dedups by target-object identity, not by
destination handle: adding a fresh target object whose destination handle
is already present grows the list from 1 to 2. -/
theorem c9_counterexample :
    c9Dup.sink = c9Existing.sink ∧
    c9Logger.streams.length = 1 ∧
    (addStream c9Logger c9Dup).streams.length = 2 :=
  ⟨rfl, rfl, rfl⟩

/-- C9 (amended): addStream is a no-op exactly when the same target
configuration object (same object identity) is already in the list;
otherwise the object is appended verbatim, even when its destination
handle already occurs in another target. -/
theorem c9_addStream_dedup_by_object (l : LoggerState) (s : SEntry) :
    (l.streams.any (fun x => x.oid == s.oid) = true → addStream l s = l) ∧
    (l.streams.any (fun x => x.oid == s.oid) = false →
      (addStream l s).streams = l.streams ++ [s]) := by
  cases l with
  | mk streams identifier pins prev =>
    constructor
    · intro h
      simp only [LoggerState.streams] at h
      simp [addStream, h]
    · intro h
      simp only [LoggerState.streams] at h
      simp [addStream, h, LoggerState.streams]

/-- C9 witness: the dedup law instantiated at the counterexample
configuration — the same-handle different-object addition appends, and
re-adding the very same object is then a no-op. -/
theorem c9_witness :
    (addStream c9Logger c9Dup).streams = c9Logger.streams ++ [c9Dup] ∧
    addStream (addStream c9Logger c9Dup) c9Dup = addStream c9Logger c9Dup :=
  ⟨(c9_addStream_dedup_by_object c9Logger c9Dup).2 rfl,
   (c9_addStream_dedup_by_object (addStream c9Logger c9Dup) c9Dup).1 rfl⟩

/- ## Claims C3, C10 -/

/-- C3: an interceptor returning anything outside its three-outcome
contract makes the whole log call fail with a TypeError, surfaced to the
caller of the top-level log invocation: if the streams processed before
the offending target complete normally (leaving current data d1), then a
target whose admitted data-interceptor returns an invalid value — or
whose string-interceptor does, with no data-interceptor in the way —
turns the entire logV2F call into the corresponding error; nothing
catches it and the call does not continue. -/
theorem c3_invalid_interceptor_raises (fuel : Nat) (pre post : List SEntry)
    (identifier : Option String) (pins : List PinLine) (prev : List (Nat × Nat))
    (level : String) (data : List String) (t : Time) (evs : List Event)
    (ss : List SEntry) (prev1 : List (Nat × Nat)) (d1 : List String) (ld : LoggerLevelData)
    (hpre : logStreamsG (logV2F fuel) pre identifier pins prev level data t =
      Except.ok (evs, ss, prev1, d1))
    (hlv : lookupLevel defaultRegistry level = some ld) :
    (∀ (bad : SEntry) (f : Int → Bool) (g : List String → String → DataIntercept),
      bad.levelF = some (LevelField.func f) → f ld.importance = true →
      bad.icData = some g → g d1 level = DataIntercept.other →
      logV2F (fuel + 1) (LoggerState.mk (pre ++ bad :: post) identifier pins prev)
          level data t =
        Except.error "interceptData returned an invalid type") ∧
    (∀ (bad : SEntry) (f : Int → Bool) (h2 : String → String → StrIntercept),
      bad.levelF = some (LevelField.func f) → f ld.importance = true →
      bad.icData = none → bad.icString = some h2 →
      h2 (formatData d1) level = StrIntercept.other →
      logV2F (fuel + 1) (LoggerState.mk (pre ++ bad :: post) identifier pins prev)
          level data t =
        Except.error "interceptString returned an invalid type") := by
  constructor
  · intro bad f g hf hadm hg hother
    have hil : applyLevel bad.levelF ld.importance = Except.ok true := by
      simp only [applyLevel, hf, hadm]
    have hstep : interceptStep bad true d1 level =
        Except.error "interceptData returned an invalid type" := by
      simp only [interceptStep, hg, hother, if_true]
    simp only [logV2F, logStreamsG_append, hpre, logStreamsG, hlv, hil, hstep]
  · intro bad f h2 hf hadm hgn hs hother
    have hil : applyLevel bad.levelF ld.importance = Except.ok true := by
      simp only [applyLevel, hf, hadm]
    have hstep : interceptStep bad true d1 level = Except.ok (some d1) := by
      simp only [interceptStep, hgn, if_true]
    have hmsg : dataToMessage bad identifier level d1 t =
        Except.error "interceptString returned an invalid type" := by
      simp only [dataToMessage, hs, hother]
    have hld : logDataG (logV2F fuel) bad identifier pins prev1 level d1 t =
        Except.error "interceptString returned an invalid type" := by
      simp only [logDataG, hmsg]
    simp only [logV2F, logStreamsG_append, hpre, logStreamsG, hlv, hil, hstep, hld]

/-- A target whose data-interceptor breaks the contract. -/
def c3BadData : SEntry :=
  SEntry.mk 10 (Sink.writable 10) (some (LevelField.func (fun _ => true))) none none
    (some (fun _ _ => DataIntercept.other)) none

/-- A target whose string-interceptor breaks the contract. -/
def c3BadStr : SEntry :=
  SEntry.mk 11 (Sink.writable 11) (some (LevelField.func (fun _ => true))) none none none
    (some (fun _ _ => StrIntercept.other))

/-- C3 witness: both contract violations surfaced from a concrete call. -/
theorem c3_witness :
    logV2F 1 (LoggerState.mk [c3BadData] none [] []) "WARN" ["w"] ⟨0, 0, 0⟩ =
      Except.error "interceptData returned an invalid type" ∧
    logV2F 1 (LoggerState.mk [c3BadStr] none [] []) "WARN" ["w"] ⟨0, 0, 0⟩ =
      Except.error "interceptString returned an invalid type" := by
  constructor
  · exact (c3_invalid_interceptor_raises 0 [] [] none [] [] "WARN" ["w"] ⟨0, 0, 0⟩
      [] [] [] ["w"] ⟨2, some ⟨33⟩⟩ rfl (by decide)).1 c3BadData (fun _ => true)
      (fun _ _ => DataIntercept.other) rfl rfl rfl rfl
  · exact (c3_invalid_interceptor_raises 0 [] [] none [] [] "WARN" ["w"] ⟨0, 0, 0⟩
      [] [] [] ["w"] ⟨2, some ⟨33⟩⟩ rfl (by decide)).2 c3BadStr (fun _ => true)
      (fun _ _ => StrIntercept.other) rfl rfl rfl rfl rfl

/-- C10: the constructor normalizes every target — an absent level becomes
the DEBUG-threshold predicate (importance >= 0), an absent prefix becomes
the coloredLog generator, an absent allowPinnedLines becomes true, and
every constructor-produced target carries a callable level predicate —
but addStream stores the given configuration verbatim, so a target added
through it whose level field is not already a predicate function makes
every subsequent leveled log call on that Logger raise an error instead
of admitting the message under those defaults. -/
theorem c10_addStream_skips_normalization :
    (∀ (o : Nat) (k : Sink) (d : Option (List String → String → DataIntercept))
        (i : Option (String → String → StrIntercept)),
      normalizeStream (SEntry.mk o k none none none d i) =
        Except.ok (SEntry.mk o k (some (LevelField.func (fun j => decide ((0 : Int) ≤ j))))
          (some defaultColoredPrefixFn) (some true) d i)) ∧
    (∀ (streams : List SEntry) (identifier : Option String) (stdoutSink : Sink)
        (l : LoggerState),
      mkLogger (some streams) identifier stdoutSink = Except.ok l →
      ∀ e, e ∈ l.streams → isLevelFunc e.levelF = true) ∧
    (∀ (l : LoggerState) (s : SEntry), l.streams.any (fun x => x.oid == s.oid) = false →
      (addStream l s).streams = l.streams ++ [s]) ∧
    (∀ (fuel : Nat) (l : LoggerState) (e : SEntry) (level : String) (data : List String)
        (t : Time),
      e ∈ l.streams → isLevelFunc e.levelF = false →
      ∃ msg, logV2F (fuel + 1) l level data t = Except.error msg) := by
  refine ⟨?_, ?_, ?_, ?_⟩
  · intro o k d i
    rfl
  · intro streams identifier stdoutSink l hmk e hmem
    unfold mkLogger at hmk
    cases hns : normalizeStreams streams with
    | error e0 => rw [hns] at hmk; cases hmk
    | ok ss =>
      rw [hns] at hmk
      cases hmk
      simp only [LoggerState.streams] at hmem
      obtain ⟨r, hr⟩ := normalizeStreams_mem streams ss hns e hmem
      exact normalizeStream_ok_func r e hr
  · intro l s h
    exact (c9_addStream_dedup_by_object l s).2 h
  · intro fuel l e level data t hmem hbad
    cases l with
    | mk ss identifier pins prev =>
      simp only [LoggerState.streams] at hmem
      obtain ⟨pre, post, rfl⟩ := List.append_of_mem hmem
      obtain ⟨msg0, hmsg0⟩ :=
        logStreamsG_badLevel_head (logV2F fuel) e post identifier pins prev level data t hbad
      cases hpre : logStreamsG (logV2F fuel) pre identifier pins prev level data t with
      | error e1 =>
        refine ⟨e1, ?_⟩
        simp only [logV2F, logStreamsG_append, hpre]
      | ok r =>
        rcases r with ⟨evs1, ss1, prev1, d1⟩
        obtain ⟨msg1, hmsg1⟩ :=
          logStreamsG_badLevel_head (logV2F fuel) e post identifier pins prev1 level d1 t hbad
        refine ⟨msg1, ?_⟩
        simp only [logV2F, logStreamsG_append, hpre, hmsg1]

/-- A target added verbatim whose level field is still the string "WARN". -/
def c10Bad : SEntry :=
  SEntry.mk 3 (Sink.writable 7) (some (LevelField.str "WARN")) none none none none

def c10Logger : LoggerState := LoggerState.mk [c10Bad] none [] []

/-- C10 witness: after such an addStream-style target, a leveled log call
errors out. -/
theorem c10_witness :
    isLevelFunc c10Bad.levelF = false ∧
    (∃ msg, logV2F 1 c10Logger "INFO" ["x"] ⟨0, 0, 0⟩ = Except.error msg) :=
  ⟨rfl, c10_addStream_skips_normalization.2.2.2 0 c10Logger c10Bad "INFO" ["x"] ⟨0, 0, 0⟩
    (List.mem_singleton.mpr rfl) rfl⟩

/- ## Claim C8 -/

/-- C8: releasing an unbound pinned line returns false, leaves the logger
untouched and writes nothing; releasing a bound one deletes it from the
pinned set, emits its current content as a standard log call at its bound
level through the full pipeline, and returns true — and the logger state
after the emission no longer contains the line. -/
theorem c8_releasePinnedLine_spec (fuel : Nat) (l : LoggerState) (line : PinLine) (t : Time) :
    (isPinnedLineBound l line = false →
      releasePinnedLine fuel l line t = (false, Except.ok ([], l))) ∧
    (isPinnedLineBound l line = true →
      releasePinnedLine fuel l line t =
        (true, logV2F fuel (LoggerState.mk l.streams l.identifier
          (l.pinned.filter (fun p => p.oid != line.oid)) l.prevSizes)
          line.level [line.content.getD ""] t) ∧
      (∀ evs l2, logV2F fuel (LoggerState.mk l.streams l.identifier
            (l.pinned.filter (fun p => p.oid != line.oid)) l.prevSizes)
          line.level [line.content.getD ""] t = Except.ok (evs, l2) →
        l2.pinned = l.pinned.filter (fun p => p.oid != line.oid) ∧
        l2.pinned.all (fun p => p.oid != line.oid) = true)) := by
  constructor
  · intro h
    simp [releasePinnedLine, h]
  · intro h
    constructor
    · simp [releasePinnedLine, h]
    · intro evs l2 hlog
      have hp2 : l2.pinned = l.pinned.filter (fun p => p.oid != line.oid) :=
        logV2F_pinned_preserved fuel _ _ _ _ _ _ hlog
      refine ⟨hp2, ?_⟩
      rw [hp2, List.all_eq_true]
      intro x hx
      exact (List.mem_filter.mp hx).2

/-- The pinned line bound in the c8 logger. -/
def c8Pin : PinLine := ⟨7, "INFO", some "hi"⟩

def c8Stream : SEntry :=
  SEntry.mk 4 (Sink.writable 3) (some (LevelField.func (fun _ => true))) none none none none

def c8Logger : LoggerState := LoggerState.mk [c8Stream] none [c8Pin] []

/-- A pinned line that was never bound in the c8 logger. -/
def c8Unbound : PinLine := ⟨8, "INFO", none⟩

/-- C8 witness: the bound release emits through the log pipeline and the
unbound release is a pure no-op returning false; the emitted call writes
the line's content to the stream. -/
theorem c8_witness :
    releasePinnedLine 1 c8Logger c8Pin ⟨0, 0, 0⟩ =
      (true, logV2F 1 (LoggerState.mk c8Logger.streams c8Logger.identifier
        (c8Logger.pinned.filter (fun p => p.oid != c8Pin.oid)) c8Logger.prevSizes)
        c8Pin.level [c8Pin.content.getD ""] ⟨0, 0, 0⟩) ∧
    releasePinnedLine 1 c8Logger c8Unbound ⟨0, 0, 0⟩ = (false, Except.ok ([], c8Logger)) ∧
    logV2F 1 (LoggerState.mk [c8Stream] none [] []) "INFO" ["hi"] ⟨0, 0, 0⟩ =
      Except.ok ([Event.write 3 "hi\n"], LoggerState.mk [c8Stream] none [] []) :=
  ⟨((c8_releasePinnedLine_spec 1 c8Logger c8Pin ⟨0, 0, 0⟩).2 rfl).1,
   (c8_releasePinnedLine_spec 1 c8Logger c8Unbound ⟨0, 0, 0⟩).1 rfl, rfl⟩

/- ## The earlier Logger generation (src/index.ts)

This is the enum-level engine: levels are the numbers DEBUG=0 .. FATAL=4,
an output is admitted when (output.level ?? DEBUG) <= calledLevel, logger
sinks receive the identifier prefix produced by identifierPrefix(level,
identifier) prepended as an extra argument, and raw sinks get prefix,
formatting, ANSI stripping (always computed, written only for
fs.WriteStream sinks) and an optional filter.  The old intercept contract
never throws: any unrecognized return value passes the data through. -/

mutual

inductive V1Sink where
  | writable : Nat → V1Sink
  | fsWriteStream : Nat → V1Sink
  | nestedLogger : V1Logger → V1Sink

inductive V1Output where
  | mk : V1Sink → Option Nat → Option (Nat → String) →
      Option (String → String → Bool) → Option (List String → DataIntercept) → V1Output

inductive V1Logger where
  | mk : String → Option (Nat → String → String) → List V1Output → V1Logger

end

/-- The per-output body of Logger.internalLog (src/index.ts), parametrized
by the recursive call used for nested loggers.  Mirrors the source loop:
objects are processed in list order; a replacement returned by intercept
is assigned to data and therefore persists for the remaining outputs. -/
def v1OutsG (recur : V1Logger → Nat → List String → List Event) (identifier : String)
    (idPrefixFn : Option (Nat → String → String)) :
    List V1Output → Nat → List String → List Event
  | [], _, _ => []
  | V1Output.mk sink olevel opfx ofilter oicept :: rest, level, data =>
    if olevel.getD 0 ≤ level then
      match sink with
      | .nestedLogger nl =>
        (match idPrefixFn with
         | some p => recur nl level (p level identifier :: data)
         | none => recur nl level data) ++
        v1OutsG recur identifier idPrefixFn rest level data
      | _ =>
        match (match oicept with
               | some f =>
                 match f data with
                 | .replace xs => some xs
                 | .null => none
                 | _ => some data
               | none => some data) with
        | none => v1OutsG recur identifier idPrefixFn rest level data
        | some d1 =>
          let s0 := (match opfx with
                     | some p => p level
                     | none => "") ++ formatData d1
          let sStripped := stripANSIFormatting s0
          (match ofilter with
           | some flt =>
             if flt s0 sStripped then
               match sink with
               | .fsWriteStream i => [Event.write i (sStripped ++ "\n")]
               | .writable i => [Event.write i (s0 ++ "\n")]
               | .nestedLogger _ => []
             else []
           | none =>
             match sink with
             | .fsWriteStream i => [Event.write i (sStripped ++ "\n")]
             | .writable i => [Event.write i (s0 ++ "\n")]
             | .nestedLogger _ => []) ++
          v1OutsG recur identifier idPrefixFn rest level d1
    else v1OutsG recur identifier idPrefixFn rest level data

/-- src/index.ts Logger.internalLog, with fuel bounding recursion through
nested loggers. -/
def internalLogF : Nat → V1Logger → Nat → List String → List Event
  | 0, _, _, _ => []
  | fuel + 1, V1Logger.mk identifier idPrefixFn outs, level, data =>
    v1OutsG (internalLogF fuel) identifier idPrefixFn outs level data

/- ## Claim C2 -/

/-- The identifierPrefix used in the hierarchy scenario: brackets around
the identifier. -/
def v1BracketFn : Nat → String → String := fun _ ident => "[" ++ ident ++ "]"

/-- Logger A: only a WARN-threshold destination (sink 0). -/
def loggerA : V1Logger :=
  V1Logger.mk "A" none [V1Output.mk (V1Sink.writable 0) (some 2) none none none]

/-- Logger B: nested target A plus its own direct destination (sink 1). -/
def loggerB : V1Logger :=
  V1Logger.mk "B" (some v1BracketFn)
    [V1Output.mk (V1Sink.nestedLogger loggerA) none none none none,
     V1Output.mk (V1Sink.writable 1) none none none none]

/-- Logger C: nested target B plus its own direct destination (sink 2). -/
def loggerC : V1Logger :=
  V1Logger.mk "C" (some v1BracketFn)
    [V1Output.mk (V1Sink.nestedLogger loggerB) none none none none,
     V1Output.mk (V1Sink.writable 2) none none none none]

/-- C2: hierarchical routing through C -> B -> A.  C.info("foobar")
(level INFO = 1) writes nothing to A's WARN-gated destination, writes
"[C] foobar\n" to B's destination and "foobar\n" to C's own destination;
C.warn("foobar") (level WARN = 2) additionally writes "[B] [C] foobar\n"
to A's destination. -/
theorem c2_hierarchical_routing :
    internalLogF 4 loggerC 1 ["foobar"] =
      [Event.write 1 "[C] foobar\n", Event.write 2 "foobar\n"] ∧
    internalLogF 4 loggerC 2 ["foobar"] =
      [Event.write 0 "[B] [C] foobar\n", Event.write 1 "[C] foobar\n",
       Event.write 2 "foobar\n"] := by
  constructor
  · rfl
  · rfl
